import Mathlib

/-!
Shallow embedding of the AST-construction layer of `verilog-parser`
(`src/verilog_ast.c`).  Pointer-valued fields whose structure no claim
inspects are modelled as opaque `Nat` identifiers; a nullable pointer is
`Option _`.  Constructors that can fail an `assert` return `Option _`
(`none` = assertion failure / construction contract violation).
-/

namespace VerilogAST

/-! ### Ordered sequence (list container)

The list container lives in `verilog_ast_common.c`, which is not part of the
given sources; only its callers are.  The operations below are modelled from
the spec's contract for the Ordered Sequence component. -/

/-- Modelled from the spec: `new() -> empty sequence` (missing
`ast_list_new` of `verilog_ast_common.c`). -/
def ast_list_new {α : Type} : List α := []

/-- Modelled from the spec: `append(seq, item)` adds at the tail (missing
`ast_list_append` of `verilog_ast_common.c`). -/
def ast_list_append {α : Type} (seq : List α) (item : α) : List α :=
  seq ++ [item]

/-- Modelled from the spec: `prepend(seq, item)` adds at the head (missing
`ast_list_preappend` of `verilog_ast_common.c`). -/
def ast_list_preappend {α : Type} (seq : List α) (item : α) : List α :=
  item :: seq

/-- Modelled from the spec: `concat(dst, src)` appends all of `src` after
`dst`'s tail (missing `ast_list_concat` of `verilog_ast_common.c`). -/
def ast_list_concat {α : Type} (dst src : List α) : List α :=
  dst ++ src

/-- Modelled from the spec: `get(seq, index) -> item or absent` for
`0 <= index < length` (missing `ast_list_get` of `verilog_ast_common.c`). -/
def ast_list_get {α : Type} (seq : List α) (index : Nat) : Option α :=
  seq.get? index

/-! ### Arena (memory management)

`ast_calloc` keeps a linked list of every allocated data block, reachable
from the global `head`, with `walker` at the tail.  The state is modelled as
the list of registered data-block ids (in allocation order) plus the ids
freed so far. -/

/-- The global allocation-list state: `blocks` are the data blocks registered
by `ast_calloc` still reachable from `head` (allocation order, head first);
`freed` are the data blocks released so far. -/
structure ast_alloc_state where
  blocks : List Nat
  freed : List Nat

/-- `ast_calloc`: allocates a data block and registers it at the tail of the
allocation list (`walker -> next`, or a fresh `head` when the list is empty). -/
def ast_calloc (st : ast_alloc_state) (block : Nat) : ast_alloc_state :=
  { st with blocks := st.blocks ++ [block] }

/-- `ast_free_all`: if `head == NULL` it returns at once; otherwise the loop
`while(head -> next != NULL)` frees `head`'s data and advances, so it frees
every registered block EXCEPT the final one (the loop exits while the last
cell is still live, and that cell's data is never passed to `free`); then
`head` and `walker` are both reset to `NULL`. -/
def ast_free_all (st : ast_alloc_state) : ast_alloc_state :=
  if st.blocks = [] then st
  else { blocks := [], freed := st.freed ++ st.blocks.dropLast }

/-! ### Attributes -/

/-- `ast_node_attributes`: one attribute (name, value) cell.  The C cell also
carries a `next` pointer; a chain is modelled as a `List` of cells, the head
playing the role of `parent`. -/
structure ast_node_attributes where
  attr_name : String
  attr_value : Option Nat

/-- `ast_new_attributes`: builds a single attribute cell. -/
def ast_new_attributes (name : String) (value : Option Nat) :
    ast_node_attributes :=
  ⟨name, value⟩

/-- `ast_append_attribute`: sets a local walker to `parent -> next` and walks
`while(walker -> next != NULL)`, then links `toadd` after the last cell.  The
chain reachable from `parent` is the argument list (head = `parent`).  When
`parent -> next` is `NULL` (a one-element chain) the first loop test
dereferences a null `walker`: modelled as `none`. -/
def ast_append_attribute (parent : List ast_node_attributes)
    (toadd : ast_node_attributes) : Option (List ast_node_attributes) :=
  match parent with
  | [] => none
  | [_] => none
  | p :: rest => some (p :: (rest ++ [toadd]))

/-! ### Primaries and expressions -/

/-- The `primary_type` discriminator of `ast_primary`. -/
inductive ast_primary_type where
  | CONSTANT_PRIMARY
  | PRIMARY
  | MODULE_PATH_PRIMARY
deriving DecidableEq

export ast_primary_type (CONSTANT_PRIMARY PRIMARY MODULE_PATH_PRIMARY)

/-- `ast_primary`: the `value_type` kind code and the union payload are
opaque. -/
structure ast_primary where
  primary_type : ast_primary_type
  value_type : Nat
  value : Nat

/-- `ast_new_constant_primary`: tags the primary `CONSTANT_PRIMARY`; the
union payload stays zero-initialised. -/
def ast_new_constant_primary (type : Nat) : ast_primary :=
  ⟨CONSTANT_PRIMARY, type, 0⟩

/-- `ast_new_primary`: tags the primary `PRIMARY`. -/
def ast_new_primary (type : Nat) : ast_primary :=
  ⟨PRIMARY, type, 0⟩

/-- `ast_new_module_path_primary`: tags the primary `MODULE_PATH_PRIMARY`. -/
def ast_new_module_path_primary (type : Nat) : ast_primary :=
  ⟨MODULE_PATH_PRIMARY, type, 0⟩

/-- The `type` discriminator of `ast_expression`. -/
inductive ast_expression_type where
  | PRIMARY_EXPRESSION
  | UNARY_EXPRESSION
  | BINARY_EXPRESSION
  | RANGE_EXPRESSION_UP_DOWN
  | RANGE_EXPRESSION_INDEX
  | STRING_EXPRESSION
  | CONDITIONAL_EXPRESSION
  | MINTYPMAX_EXPRESSION
deriving DecidableEq

export ast_expression_type (PRIMARY_EXPRESSION UNARY_EXPRESSION
  BINARY_EXPRESSION RANGE_EXPRESSION_UP_DOWN RANGE_EXPRESSION_INDEX
  STRING_EXPRESSION CONDITIONAL_EXPRESSION MINTYPMAX_EXPRESSION)

/-- `ast_expression`: child expressions and the attribute list are opaque
references; `constant` is the `AST_TRUE`/`AST_FALSE` flag.  `ast_calloc`
zero-initialises every field, so a field a constructor does not assign is
`none` / `false`. -/
structure ast_expression where
  type : ast_expression_type
  attributes : Option Nat
  left : Option Nat
  right : Option Nat
  aux : Option Nat
  primary : Option ast_primary
  constant : Bool
  string : Option String

/-- `ast_new_expression_primary`: wraps a primary; `constant` is
`p -> primary_type == CONSTANT_PRIMARY ? AST_TRUE : AST_FALSE`. -/
def ast_new_expression_primary (p : ast_primary) : ast_expression :=
  { type := PRIMARY_EXPRESSION
    attributes := none
    left := none
    right := none
    aux := none
    primary := some p
    constant := if p.primary_type = CONSTANT_PRIMARY then true else false
    string := none }

/-- `ast_new_string_expression`: `constant` is assigned `AST_TRUE`. -/
def ast_new_string_expression (string : String) : ast_expression :=
  { type := STRING_EXPRESSION
    attributes := none
    left := none
    right := none
    aux := none
    primary := none
    constant := true
    string := some string }

/-- `ast_new_range_expression`: stores the two bound expressions; the source
never assigns `constant`, which therefore keeps the `AST_FALSE` value
`ast_calloc`'s zero-initialisation gave it. -/
def ast_new_range_expression (left right : Option Nat) : ast_expression :=
  { type := RANGE_EXPRESSION_UP_DOWN
    attributes := none
    left := left
    right := right
    aux := none
    primary := none
    constant := false
    string := none }

/-- `ast_new_index_expression`: stores the index expression; like the range
form, `constant` keeps the zero-initialised `AST_FALSE`. -/
def ast_new_index_expression (left : Option Nat) : ast_expression :=
  { type := RANGE_EXPRESSION_INDEX
    attributes := none
    left := left
    right := none
    aux := none
    primary := none
    constant := false
    string := none }

/-! ### Function calls -/

/-- `ast_function_call`: `arguments` is a nullable list pointer. -/
structure ast_function_call where
  function : String
  constant : Bool
  system : Bool
  arguments : Option (List Nat)
  attributes : Option Nat

/-- `ast_new_function_call`: stores every argument field, then replaces a
`NULL` `arguments` pointer with a fresh empty list. -/
def ast_new_function_call (id : String) (constant : Bool) (system : Bool)
    (attr : Option Nat) (arguments : Option (List Nat)) : ast_function_call :=
  let tr : ast_function_call :=
    { function := id
      constant := constant
      system := system
      arguments := arguments
      attributes := attr }
  if tr.arguments = none then
    { tr with arguments := some ast_list_new }
  else
    tr

/-! ### Concatenations -/

/-- The `type` discriminator of `ast_concatenation`. -/
inductive ast_concatenation_type where
  | CONCATENATION_EXPRESSION
  | CONCATENATION_CONSTANT_EXPRESSION
  | CONCATENATION_NET
  | CONCATENATION_VARIABLE
  | CONCATENATION_MODULE_PATH
deriving DecidableEq

/-- `ast_concatenation`: items are opaque `void *` references; `repeat` (here `repeat_count`, since `repeat` is reserved) is a
nullable expression reference. -/
structure ast_concatenation where
  repeat_count : Option Nat
  type : ast_concatenation_type
  items : List Nat

/-- `ast_new_concatenation`: new list containing exactly the first value. -/
def ast_new_concatenation (type : ast_concatenation_type)
    (repeat_count : Option Nat) (first_value : Nat) : ast_concatenation :=
  { repeat_count := repeat_count
    type := type
    items := ast_list_append ast_list_new first_value }

/-- `ast_new_empty_concatenation`: empty item list, no repeat_count. -/
def ast_new_empty_concatenation (type : ast_concatenation_type) :
    ast_concatenation :=
  { repeat_count := none
    type := type
    items := ast_list_new }

/-- `ast_extend_concatenation`: front-inserts the new data with
`ast_list_preappend`; the `repeat` (here `repeat_count`, since `repeat` is reserved) argument is unused by the source. -/
def ast_extend_concatenation (element : ast_concatenation)
    (repeat_count : Option Nat) (data : Nat) : ast_concatenation :=
  { element with items := ast_list_preappend element.items data }

/-! ### Lvalues -/

/-- The `type` discriminator of `ast_lvalue`. -/
inductive ast_lvalue_type where
  | NET_IDENTIFIER
  | VAR_IDENTIFIER
  | GENVAR_IDENTIFIER
  | NET_CONCATENATION
  | VAR_CONCATENATION
deriving DecidableEq

export ast_lvalue_type (NET_IDENTIFIER VAR_IDENTIFIER GENVAR_IDENTIFIER
  NET_CONCATENATION VAR_CONCATENATION)

/-- The `data` union of `ast_lvalue`: an identifier or a concatenation. -/
inductive ast_lvalue_data where
  | identifier (id : String)
  | concatenation (concat : ast_concatenation)

/-- `ast_lvalue`: a type tag plus the matching union payload. -/
structure ast_lvalue where
  type : ast_lvalue_type
  data : ast_lvalue_data

/-- `ast_new_lvalue_id`: asserts the tag is one of the identifier forms
(`NET_IDENTIFIER`, `VAR_IDENTIFIER`, `GENVAR_IDENTIFIER`), then stores the
tag and the identifier payload.  `none` models the assertion failing. -/
def ast_new_lvalue_id (type : ast_lvalue_type) (id : String) :
    Option ast_lvalue :=
  if type = NET_IDENTIFIER ∨ type = VAR_IDENTIFIER ∨
      type = GENVAR_IDENTIFIER then
    some { type := type, data := ast_lvalue_data.identifier id }
  else
    none

/-- `ast_new_lvalue_concat`: asserts the tag is one of the concatenation
forms (`NET_CONCATENATION`, `VAR_CONCATENATION`), then stores the tag and the
concatenation payload.  `none` models the assertion failing. -/
def ast_new_lvalue_concat (type : ast_lvalue_type)
    (concat : ast_concatenation) : Option ast_lvalue :=
  if type = NET_CONCATENATION ∨ type = VAR_CONCATENATION then
    some { type := type, data := ast_lvalue_data.concatenation concat }
  else
    none

/-! ### Case statements -/

/-- The `type` discriminator of `ast_case_statement` (case / casex / casez). -/
inductive ast_case_statement_type where
  | CASE
  | CASEX
  | CASEZ
deriving DecidableEq

/-- `ast_case_item`: conditions list and body are opaque references;
`is_default` is the flag the parser sets after construction for the
`default:` item. -/
structure ast_case_item where
  conditions : Option (List Nat)
  body : Option Nat
  is_default : Bool

/-- `ast_new_case_item`: stores conditions and body and clears
`is_default`. -/
def ast_new_case_item (conditions : Option (List Nat)) (body : Option Nat) :
    ast_case_item :=
  { conditions := conditions, body := body, is_default := false }

/-- `ast_case_statement`: `default_item` caches the first item flagged
default (`none` when no item is, the zero-initialised value). -/
structure ast_case_statement where
  expression : Option Nat
  cases : List ast_case_item
  type : ast_case_statement_type
  is_function : Bool
  default_item : Option ast_case_item

/-- The `for` loop of `ast_new_case_statement`: walks the cases from index 0
via `ast_list_get` and stops at the first item whose `is_default` is
`AST_TRUE`, which it caches; reaching the end leaves the zero-initialised
`NULL`. -/
def ast_case_default_scan : List ast_case_item → Option ast_case_item
  | [] => none
  | c :: rest =>
    if c.is_default = true then some c else ast_case_default_scan rest

/-- `ast_new_case_statement`: stores expression, cases and kind, clears
`is_function`, and runs the one-time default scan. -/
def ast_new_case_statement (expression : Option Nat)
    (cases : List ast_case_item) (type : ast_case_statement_type) :
    ast_case_statement :=
  { expression := expression
    cases := cases
    type := type
    is_function := false
    default_item := ast_case_default_scan cases }

/-! ### Conditional statements and if-else chains -/

/-- `ast_conditional_statement`: a body statement and its guard condition,
both opaque references. -/
structure ast_conditional_statement where
  statement : Option Nat
  condition : Option Nat

/-- `ast_new_conditional_statement`: stores the statement and condition. -/
def ast_new_conditional_statement (statement : Option Nat)
    (condition : Option Nat) : ast_conditional_statement :=
  { statement := statement, condition := condition }

/-- `ast_if_else`: the ordered chain of conditional statements plus the
optional trailing else body. -/
structure ast_if_else where
  else_condition : Option Nat
  conditional_statements : List ast_conditional_statement

/-- `ast_new_if_else`: a fresh list holding exactly the first conditional
statement, appended with `ast_list_append`. -/
def ast_new_if_else (if_condition : ast_conditional_statement)
    (else_condition : Option Nat) : ast_if_else :=
  { else_condition := else_condition
    conditional_statements :=
      ast_list_append ast_list_new if_condition }

/-- `ast_extend_if_else`: when the new list is not `NULL`, concatenates it
after the existing chain with `ast_list_concat`; a `NULL` list is a no-op. -/
def ast_extend_if_else (conditional_statements : ast_if_else)
    (new_statements : Option (List ast_conditional_statement)) : ast_if_else :=
  match new_statements with
  | none => conditional_statements
  | some l =>
    { conditional_statements with
        conditional_statements :=
          ast_list_concat
            conditional_statements.conditional_statements l }

/-! ### Events and event controls -/

/-- The edge argument of `ast_new_event_expression`. -/
inductive ast_edge where
  | EDGE_NONE
  | EDGE_POS
  | EDGE_NEG
  | EDGE_ANY
deriving DecidableEq

export ast_edge (EDGE_NONE EDGE_POS EDGE_NEG EDGE_ANY)

/-- The `type` discriminator of `ast_event_expression`. -/
inductive ast_event_expression_type where
  | EVENT_POSEDGE
  | EVENT_NEGEDGE
  | EVENT_EXPRESSION
  | EVENT_SEQUENCE
deriving DecidableEq

export ast_event_expression_type (EVENT_POSEDGE EVENT_NEGEDGE
  EVENT_EXPRESSION EVENT_SEQUENCE)

/-- `ast_event_expression`: the monitored expression is an opaque reference;
`sequence` holds the two-element list of the sequence form. -/
structure ast_event_expression where
  type : ast_event_expression_type
  expression : Option Nat
  sequence : Option (List Nat)

/-- `ast_new_event_expression`: asserts the edge is not `EDGE_NONE`
(modelled `none`), then maps `EDGE_POS` to `EVENT_POSEDGE`, `EDGE_NEG` to
`EVENT_NEGEDGE` and `EDGE_ANY` to `EVENT_EXPRESSION`, storing the monitored
expression in each case. -/
def ast_new_event_expression (trigger_edge : ast_edge)
    (expression : Option Nat) : Option ast_event_expression :=
  match trigger_edge with
  | EDGE_NONE => none
  | EDGE_POS =>
    some { type := EVENT_POSEDGE, expression := expression, sequence := none }
  | EDGE_NEG =>
    some { type := EVENT_NEGEDGE, expression := expression, sequence := none }
  | EDGE_ANY =>
    some { type := EVENT_EXPRESSION, expression := expression,
           sequence := none }

/-- The `type` discriminator of `ast_event_control`. -/
inductive ast_event_control_type where
  | EVENT_CTRL_NONE
  | EVENT_CTRL_ANY
  | EVENT_CTRL_TRIGGERS
deriving DecidableEq

export ast_event_control_type (EVENT_CTRL_NONE EVENT_CTRL_ANY
  EVENT_CTRL_TRIGGERS)

/-- `ast_event_control`: the control kind and an optional event
expression. -/
structure ast_event_control where
  type : ast_event_control_type
  expression : Option ast_event_expression

/-- `ast_new_event_control`: when the kind is `EVENT_CTRL_ANY` it asserts
the expression is `NULL` (failure modelled `none`); otherwise it stores kind
and expression. -/
def ast_new_event_control (type : ast_event_control_type)
    (expression : Option ast_event_expression) : Option ast_event_control :=
  if type = EVENT_CTRL_ANY ∧ expression.isSome = true then none
  else some { type := type, expression := expression }

/-! ### UDP instances -/

/-- `ast_udp_instance`: identifier plus opaque references to the range, the
output lvalue and the input list. -/
structure ast_udp_instance where
  identifier : String
  range : Option Nat
  output : Option Nat
  inputs : Option (List Nat)

/-- `ast_new_udp_instance`: stores the four arguments unchanged. -/
def ast_new_udp_instance (identifier : String) (range : Option Nat)
    (output : Option Nat) (inputs : Option (List Nat)) : ast_udp_instance :=
  { identifier := identifier
    range := range
    output := output
    inputs := inputs }

/-! ### Parameter declarations -/

/-- The `type` discriminator of `ast_parameter_declarations`:
`PARAM_GENERIC` is the generic numeric kind; the others are the specified
kinds. -/
inductive ast_parameter_type where
  | PARAM_GENERIC
  | PARAM_INTEGER
  | PARAM_REAL
  | PARAM_REALTIME
  | PARAM_TIME
deriving DecidableEq

export ast_parameter_type (PARAM_GENERIC PARAM_INTEGER PARAM_REAL
  PARAM_REALTIME PARAM_TIME)

/-- `ast_parameter_declarations`: assignment list reference, signedness and
localparam flags, optional range reference and the parameter kind.  The C
field `local` is `is_local` here, `local` being reserved. -/
structure ast_parameter_declarations where
  assignments : Option (List Nat)
  signed_values : Bool
  is_local : Bool
  range : Option Nat
  type : ast_parameter_type

/-- `ast_new_parameter_declarations`: stores every argument, then, when the
kind is not `PARAM_GENERIC`, overwrites `range` with `NULL` and
`signed_values` with `AST_FALSE`. -/
def ast_new_parameter_declarations (assignments : Option (List Nat))
    (signed_values : Bool) (is_local : Bool) (range : Option Nat)
    (type : ast_parameter_type) : ast_parameter_declarations :=
  let tr : ast_parameter_declarations :=
    { assignments := assignments
      signed_values := signed_values
      is_local := is_local
      range := range
      type := type }
  if type ≠ PARAM_GENERIC then
    { tr with range := none, signed_values := false }
  else
    tr

/-! ## Theorems for the claims -/

/-- C1: building a concatenation with `ast_new_concatenation(t, NULL, A)`
and then extending it with `B` and with `C` yields the item sequence
`[C, B, A]`: the first item supplied becomes the sole element and every
later extend call front-inserts its item before the current contents. -/
theorem c1_concatenation_order (t : ast_concatenation_type) (a b c : Nat)
    (r1 r2 : Option Nat) :
    (ast_extend_concatenation
        (ast_extend_concatenation (ast_new_concatenation t none a) r1 b)
        r2 c).items = [c, b, a] :=
  rfl

/-- C2: building an if-else chain with `ast_new_if_else(c1, else_body)` and
extending it with the list `[c2, c3]` yields the conditional-statement
sequence `[c1, c2, c3]` — extension appends after existing entries, the
opposite insertion direction from concatenation. -/
theorem c2_if_else_priority (c1 c2 c3 : ast_conditional_statement)
    (else_body : Option Nat) :
    (ast_extend_if_else (ast_new_if_else c1 else_body)
        (some [c2, c3])).conditional_statements = [c1, c2, c3] :=
  rfl

/-- C3 (code bug): after a single `ast_calloc`, `ast_free_all` resets the
bookkeeping (`blocks = []`, i.e. `head = walker = NULL`) but frees NOTHING —
the registered block is leaked, because the loop `while(head -> next !=
NULL)` exits while the final list cell is still live; `ast_free_all` on an
empty session is a no-op.  This contradicts the function's own documented
postcondition that all memory allocated by `ast_calloc` has been freed. -/
theorem c3_free_all_leaks_last_block :
    (ast_free_all (ast_calloc ⟨[], []⟩ 7)).blocks = [] ∧
    (ast_free_all (ast_calloc ⟨[], []⟩ 7)).freed = [] ∧
    ast_free_all ⟨[], []⟩ = ⟨[], []⟩ :=
  ⟨rfl, rfl, rfl⟩

/-- Helper for C4: the default scan returns `none` on a list with no item
flagged default. -/
theorem ast_case_default_scan_eq_none (cases : List ast_case_item)
    (h : ∀ c ∈ cases, c.is_default = false) :
    ast_case_default_scan cases = none := by
  induction cases with
  | nil => rfl
  | cons c rest ih =>
    rw [ast_case_default_scan, h c (List.mem_cons_self c rest)]
    exact ih fun x hx => h x (List.mem_cons_of_mem c hx)

/-- C4: for a case statement built from items `[i0, i1, i2]` where `i1` and
`i2` are flagged default and `i0` is not, `default_item` is `i1` (the scan
caches the first default found); and when no item in the list is flagged
default, `default_item` is absent. -/
theorem c4_case_default_caching (e : Option Nat)
    (t : ast_case_statement_type) (i0 i1 i2 : ast_case_item)
    (h0 : i0.is_default = false) (h1 : i1.is_default = true)
    (h2 : i2.is_default = true) :
    (ast_new_case_statement e [i0, i1, i2] t).default_item = some i1 ∧
    ∀ cases : List ast_case_item,
      (∀ c ∈ cases, c.is_default = false) →
      (ast_new_case_statement e cases t).default_item = none := by
  constructor
  · show ast_case_default_scan [i0, i1, i2] = some i1
    rw [ast_case_default_scan, h0, ast_case_default_scan, h1]
    rfl
  · intro cases hall
    exact ast_case_default_scan_eq_none cases hall

/-- Witness for C4 at concrete case items. -/
theorem c4_case_default_caching_witness :
    (ast_new_case_statement none
        [⟨none, none, false⟩, ⟨none, some 1, true⟩, ⟨none, some 2, true⟩]
        ast_case_statement_type.CASE).default_item =
      some ⟨none, some 1, true⟩ ∧
    (ast_new_case_statement none
        [⟨none, none, false⟩, ⟨none, some 1, false⟩]
        ast_case_statement_type.CASE).default_item = none := by
  refine ⟨(c4_case_default_caching none ast_case_statement_type.CASE
      ⟨none, none, false⟩ ⟨none, some 1, true⟩ ⟨none, some 2, true⟩
      rfl rfl rfl).1, ?_⟩
  exact (c4_case_default_caching none ast_case_statement_type.CASE
      ⟨none, none, false⟩ ⟨none, some 1, true⟩ ⟨none, some 2, true⟩
      rfl rfl rfl).2 _ (by decide)

/-- C5: `ast_new_lvalue_id` fails (assertion) for every tag outside the
identifier forms and otherwise returns a node carrying the supplied tag and
identifier; `ast_new_lvalue_concat` fails for every tag outside the
concatenation forms and otherwise returns a node carrying the supplied tag
and concatenation — a mismatched tag/payload pair is never produced. -/
theorem c5_lvalue_tag_pairing (t : ast_lvalue_type) (id : String)
    (c : ast_concatenation) :
    (¬(t = NET_IDENTIFIER ∨ t = VAR_IDENTIFIER ∨ t = GENVAR_IDENTIFIER) →
      ast_new_lvalue_id t id = none) ∧
    ((t = NET_IDENTIFIER ∨ t = VAR_IDENTIFIER ∨ t = GENVAR_IDENTIFIER) →
      ast_new_lvalue_id t id =
        some { type := t, data := ast_lvalue_data.identifier id }) ∧
    (¬(t = NET_CONCATENATION ∨ t = VAR_CONCATENATION) →
      ast_new_lvalue_concat t c = none) ∧
    ((t = NET_CONCATENATION ∨ t = VAR_CONCATENATION) →
      ast_new_lvalue_concat t c =
        some { type := t, data := ast_lvalue_data.concatenation c }) := by
  refine ⟨fun h => ?_, fun h => ?_, fun h => ?_, fun h => ?_⟩ <;>
    simp [ast_new_lvalue_id, ast_new_lvalue_concat, h]

/-- Witness for C5 at concrete tags: the concatenation-only tag makes the
identifier constructor fail, and a matched pair succeeds. -/
theorem c5_lvalue_tag_pairing_witness :
    ast_new_lvalue_id NET_CONCATENATION "x" = none ∧
    ast_new_lvalue_id NET_IDENTIFIER "x" =
      some { type := NET_IDENTIFIER,
             data := ast_lvalue_data.identifier "x" } ∧
    ast_new_lvalue_concat VAR_IDENTIFIER
      (ast_new_empty_concatenation
        ast_concatenation_type.CONCATENATION_EXPRESSION) = none ∧
    ast_new_lvalue_concat NET_CONCATENATION
      (ast_new_empty_concatenation
        ast_concatenation_type.CONCATENATION_EXPRESSION) =
      some { type := NET_CONCATENATION,
             data := ast_lvalue_data.concatenation
               (ast_new_empty_concatenation
                 ast_concatenation_type.CONCATENATION_EXPRESSION) } :=
  ⟨(c5_lvalue_tag_pairing NET_CONCATENATION "x"
      (ast_new_empty_concatenation
        ast_concatenation_type.CONCATENATION_EXPRESSION)).1 (by decide),
   (c5_lvalue_tag_pairing NET_IDENTIFIER "x"
      (ast_new_empty_concatenation
        ast_concatenation_type.CONCATENATION_EXPRESSION)).2.1 (by decide),
   (c5_lvalue_tag_pairing VAR_IDENTIFIER "x"
      (ast_new_empty_concatenation
        ast_concatenation_type.CONCATENATION_EXPRESSION)).2.2.1 (by decide),
   (c5_lvalue_tag_pairing NET_CONCATENATION "x"
      (ast_new_empty_concatenation
        ast_concatenation_type.CONCATENATION_EXPRESSION)).2.2.2 (by decide)⟩

/-- C6: `ast_new_event_expression` maps `EDGE_POS` to `EVENT_POSEDGE`,
`EDGE_NEG` to `EVENT_NEGEDGE` and `EDGE_ANY` to the generic
`EVENT_EXPRESSION`, storing the monitored expression each time; and
`ast_new_event_control` with kind `EVENT_CTRL_ANY` and a non-absent
expression fails its assertion. -/
theorem c6_event_edge_mapping (e : Option Nat)
    (ee : Option ast_event_expression) (hee : ee ≠ none) :
    ast_new_event_expression EDGE_POS e =
      some { type := EVENT_POSEDGE, expression := e, sequence := none } ∧
    ast_new_event_expression EDGE_NEG e =
      some { type := EVENT_NEGEDGE, expression := e, sequence := none } ∧
    ast_new_event_expression EDGE_ANY e =
      some { type := EVENT_EXPRESSION, expression := e, sequence := none } ∧
    ast_new_event_control EVENT_CTRL_ANY ee = none := by
  refine ⟨rfl, rfl, rfl, ?_⟩
  simp [ast_new_event_control, hee]

/-- Witness for C6 at a concrete monitored expression and event control. -/
theorem c6_event_edge_mapping_witness :
    ast_new_event_expression EDGE_POS (some 5) =
      some { type := EVENT_POSEDGE, expression := some 5,
             sequence := none } ∧
    ast_new_event_control EVENT_CTRL_ANY
      (some { type := EVENT_EXPRESSION, expression := none,
              sequence := none }) = none :=
  ⟨(c6_event_edge_mapping (some 5)
      (some { type := EVENT_EXPRESSION, expression := none,
              sequence := none }) (by simp)).1,
   (c6_event_edge_mapping (some 5)
      (some { type := EVENT_EXPRESSION, expression := none,
              sequence := none }) (by simp)).2.2.2⟩

/-- C7: `ast_new_expression_primary` sets the `constant` flag true exactly
when the wrapped primary is tagged `CONSTANT_PRIMARY`;
`ast_new_string_expression` always sets it true; the range and index
constructors leave it `AST_FALSE` whatever their operands — in every case
the flag is fixed by the construction rule. -/
theorem c7_constant_flag (p : ast_primary) (s : String) (l r : Option Nat) :
    (ast_new_expression_primary p).constant =
      decide (p.primary_type = CONSTANT_PRIMARY) ∧
    (ast_new_string_expression s).constant = true ∧
    (ast_new_range_expression l r).constant = false ∧
    (ast_new_index_expression l).constant = false := by
  refine ⟨?_, rfl, rfl, rfl⟩
  by_cases h : p.primary_type = CONSTANT_PRIMARY <;>
    simp [ast_new_expression_primary, h]

/-- C8 counterexample: called with a `NULL` arguments list,
`ast_new_function_call` does NOT return a node whose `arguments` field
equals the supplied argument — it substitutes a fresh empty list. -/
theorem c8_null_arguments_replaced :
    (ast_new_function_call "f" false false none none).arguments ≠ none := by
  decide

/-- C8 (amended): every field of `ast_new_function_call` and of
`ast_new_udp_instance` is retrievable unchanged, except that a `NULL`
`arguments` list is replaced by a fresh empty list. -/
theorem c8_field_round_trip (id : String) (c s : Bool) (attr : Option Nat)
    (args : List Nat) (uid : String) (rng out : Option Nat)
    (ins : Option (List Nat)) :
    ast_new_function_call id c s attr none =
      { function := id, constant := c, system := s,
        arguments := some ast_list_new, attributes := attr } ∧
    ast_new_function_call id c s attr (some args) =
      { function := id, constant := c, system := s,
        arguments := some args, attributes := attr } ∧
    ast_new_udp_instance uid rng out ins =
      { identifier := uid, range := rng, output := out, inputs := ins } :=
  ⟨rfl, rfl, rfl⟩

/-- C9: `ast_new_parameter_declarations` forces `range` to `NULL` and
`signed_values` to false for every kind other than `PARAM_GENERIC`,
whatever was supplied; for `PARAM_GENERIC` both fields equal the supplied
arguments. -/
theorem c9_parameter_field_suppression (a : Option (List Nat))
    (sv loc : Bool) (rng : Option Nat) (t : ast_parameter_type) :
    (t ≠ PARAM_GENERIC →
      ast_new_parameter_declarations a sv loc rng t =
        { assignments := a, signed_values := false, is_local := loc,
          range := none, type := t }) ∧
    ast_new_parameter_declarations a sv loc rng PARAM_GENERIC =
      { assignments := a, signed_values := sv, is_local := loc,
        range := rng, type := PARAM_GENERIC } := by
  refine ⟨fun h => ?_, rfl⟩
  simp [ast_new_parameter_declarations, h]

/-- Witness for C9 at a concrete non-generic parameter kind. -/
theorem c9_parameter_field_suppression_witness :
    ast_new_parameter_declarations none true true (some 3) PARAM_INTEGER =
      { assignments := none, signed_values := false, is_local := true,
        range := none, type := PARAM_INTEGER } :=
  (c9_parameter_field_suppression none true true (some 3)
    PARAM_INTEGER).1 (by decide)

/-- C10: `ast_append_attribute` starts walking at `parent -> next`, so on a
chain with at least two cells it links `toadd` after the last cell of the
tail (never as `parent`'s immediate successor, which stays the original
second cell), while on a one-cell chain (`parent -> next == NULL`) the loop
test dereferences a null pointer — the error branch is reachable exactly
when the tail is empty. -/
theorem c10_append_attribute_tail (p toadd : ast_node_attributes)
    (rest : List ast_node_attributes) :
    (rest = [] → ast_append_attribute (p :: rest) toadd = none) ∧
    (rest ≠ [] →
      ast_append_attribute (p :: rest) toadd =
        some (p :: (rest ++ [toadd]))) := by
  constructor
  · intro h; subst h; rfl
  · intro h
    cases rest with
    | nil => exact absurd rfl h
    | cons r rs => rfl

/-- Witness for C10 at concrete attribute chains. -/
theorem c10_append_attribute_tail_witness :
    ast_append_attribute [⟨"a", none⟩] ⟨"b", none⟩ = none ∧
    ast_append_attribute [⟨"a", none⟩, ⟨"b", none⟩] ⟨"c", some 1⟩ =
      some [⟨"a", none⟩, ⟨"b", none⟩, ⟨"c", some 1⟩] :=
  ⟨(c10_append_attribute_tail ⟨"a", none⟩ ⟨"b", none⟩ []).1 rfl,
   (c10_append_attribute_tail ⟨"a", none⟩ ⟨"c", some 1⟩
      [⟨"b", none⟩]).2 (by simp)⟩

end VerilogAST
